import Mathlib

/-!
Verification of the dora C node API (src/apis/c/node/node_api.h).

The repository ships the C header that declares the node API surface:
contexts, the blocking event source, the tagged event model with typed
zero-copy data views, and the typed output-send entry points.  The header
declares the interface; the behaviour of the declared functions is modelled
from the specification where the implementation is not part of the sources.
-/

namespace Dora

/-! ## The declared interface surface (transcribed from node_api.h) -/

/-- C scalar types appearing as buffer element types in the header's
declarations.  `cInt` is the C `int` type, whose width is platform-defined;
`cInt32` is the fixed-width `int32_t` (declared in `<stdint.h>`, which the
header includes but does not use for its i32 entry points). -/
inductive CScalar where
  | cUInt8
  | cInt
  | cInt32
  | cFloat
  | cUInt64
  deriving DecidableEq, Repr

/-- A platform, characterised by the bit width it gives the C `int` type. -/
structure Platform where
  intBits : Nat

/-- Width in bits of a C scalar on a given platform. -/
def CScalar.widthOn (p : Platform) : CScalar → Nat
  | .cUInt8 => 8
  | .cInt => p.intBits
  | .cInt32 => 32
  | .cFloat => 32
  | .cUInt64 => 64

/-- The width of a C scalar when it is the same on every platform;
`none` for `int`, whose width the C standard leaves to the platform. -/
def CScalar.fixedWidth : CScalar → Option Nat
  | .cUInt8 => some 8
  | .cInt => none
  | .cInt32 => some 32
  | .cFloat => some 32
  | .cUInt64 => some 64

/-- The element type tags of the typed API entry points, named after the
suffixes `_u8`, `_i32`, `_f32`, `_u64` used in the header. -/
inductive ElementType where
  | u8
  | i32
  | f32
  | u64
  deriving DecidableEq, Repr

/-- One declared function of the header that carries a typed buffer,
recorded with its name and the C scalar type of its buffer elements. -/
structure TypedDecl where
  name : String
  elemCType : CScalar
  deriving DecidableEq, Repr

/-- The data accessors declared at lines 22-28 of node_api.h, with the C
element type each one is declared over.  `read_dora_input_data_i32` is
declared over `int **out_ptr`, i.e. the platform `int`, not `int32_t`. -/
def dataAccessorDecls : List TypedDecl :=
  [⟨"read_dora_input_data_u8", .cUInt8⟩,
   ⟨"read_dora_input_data_i32", .cInt⟩,
   ⟨"read_dora_input_data_f32", .cFloat⟩,
   ⟨"read_dora_input_data_u64", .cUInt64⟩]

/-- The send entry points declared at lines 30-37 of node_api.h, with the C
element type of the `data_ptr` parameter.  `dora_send_output_i32` is
declared over `int *data_ptr`, i.e. the platform `int`, not `int32_t`. -/
def sendOutputDecls : List TypedDecl :=
  [⟨"dora_send_output_u8", .cUInt8⟩,
   ⟨"dora_send_output_i32", .cInt⟩,
   ⟨"dora_send_output_f32", .cFloat⟩,
   ⟨"dora_send_output_u64", .cUInt64⟩]

/-- The element type tag an entry point's C scalar type corresponds to. -/
def CScalar.elemTag : CScalar → ElementType
  | .cUInt8 => .u8
  | .cInt => .i32
  | .cInt32 => .i32
  | .cFloat => .f32
  | .cUInt64 => .u64

/-- The C element type of the data accessor with the given name, looked up
in the header's declarations. -/
def accessorCType (n : String) : Option CScalar :=
  (dataAccessorDecls.find? (fun d => d.name = n)).map TypedDecl.elemCType

/-- The C element type of the send entry point with the given name, looked
up in the header's declarations. -/
def sendCType (n : String) : Option CScalar :=
  (sendOutputDecls.find? (fun d => d.name = n)).map TypedDecl.elemCType

/-! ## Events and typed views

The header declares the event type discriminator enum `DoraEventType`
(lines 12-18) and the introspection functions.  The event values themselves
are opaque `void *` handles produced by `dora_next_event`; their structure
is modelled from the spec's tagged-union event model (§3). -/

/-- The `DoraEventType` enum of node_api.h, lines 12-18. -/
inductive DoraEventType where
  | Stop
  | Input
  | InputClosed
  | Error
  | Unknown
  deriving DecidableEq, Repr

/-- The numeric value of each enumerator, as C assigns them in order. -/
def DoraEventType.code : DoraEventType → Nat
  | .Stop => 0
  | .Input => 1
  | .InputClosed => 2
  | .Error => 3
  | .Unknown => 4

/-- Modelled from the spec: an input payload is a flat array of elements of
one primitive element type, tagged with that type (§3 Buffer View: element
type tag plus elements).  Element values are modelled abstractly as
integers. -/
structure InputPayload where
  ty : ElementType
  vals : List Int
  deriving DecidableEq, Repr

/-- Modelled from the spec: the tagged-union event model of §3 — `Stop`
with no payload, `Input` with id and data, `InputClosed` with id, `Error`
with a message, and the `Unknown` catch-all.  The header only declares the
opaque handle and its discriminator. -/
inductive DoraEvent where
  | stop
  | input (id : String) (payload : InputPayload)
  | inputClosed (id : String)
  | err (msg : String)
  | unknown
  deriving DecidableEq, Repr

/-- Modelled from the spec: `read_dora_event_type` (header line 19) returns
the discriminator of the tagged union. -/
def read_dora_event_type : DoraEvent → DoraEventType
  | .stop => .Stop
  | .input _ _ => .Input
  | .inputClosed _ => .InputClosed
  | .err _ => .Error
  | .unknown => .Unknown

/-- A (pointer, length) pair as returned through the accessors' out
parameters.  `ptr = none` models a null pointer; `some vs` models a
non-null pointer to the elements `vs`. -/
structure DataView where
  ptr : Option (List Int)
  len : Nat
  deriving DecidableEq, Repr

/-- The null/empty view: null pointer, zero length. -/
def DataView.nullView : DataView := ⟨none, 0⟩

/-- A (pointer, length) view of an id string, as returned by
`read_dora_input_id`.  `ptr = none` models a null pointer. -/
structure IdView where
  ptr : Option String
  len : Nat
  deriving DecidableEq, Repr

/-- Modelled from the spec: `read_dora_input_id` (header line 21) returns a
view of the input id for `Input`/`InputClosed` events and an empty view for
event kinds without an id (§4.3). -/
def read_dora_input_id : DoraEvent → IdView
  | .input id _ => ⟨some id, id.length⟩
  | .inputClosed id => ⟨some id, id.length⟩
  | _ => ⟨none, 0⟩

/-- Modelled from the spec: the common behaviour of the four typed data
accessors (header lines 22-28).  On an `Input` event whose payload is
tagged with the requested element type, the view exposes the payload
elements with length equal to the element count; on a type mismatch or a
non-`Input` event it is the null/empty view — a checked reinterpretation,
never an unchecked cast (§3, §4.3). -/
def read_dora_input_data (ty : ElementType) : DoraEvent → DataView
  | .input _ p => if p.ty = ty then ⟨some p.vals, p.vals.length⟩ else .nullView
  | _ => .nullView

/-- Header accessor `read_dora_input_data_u8`, modelled. -/
def read_dora_input_data_u8 : DoraEvent → DataView :=
  read_dora_input_data .u8

/-- Header accessor `read_dora_input_data_i32`, modelled. -/
def read_dora_input_data_i32 : DoraEvent → DataView :=
  read_dora_input_data .i32

/-- Header accessor `read_dora_input_data_f32`, modelled. -/
def read_dora_input_data_f32 : DoraEvent → DataView :=
  read_dora_input_data .f32

/-- Header accessor `read_dora_input_data_u64`, modelled. -/
def read_dora_input_data_u64 : DoraEvent → DataView :=
  read_dora_input_data .u64

/-- The typed accessor selected by an element type tag. -/
def accessorOf : ElementType → DoraEvent → DataView
  | .u8 => read_dora_input_data_u8
  | .i32 => read_dora_input_data_i32
  | .f32 => read_dora_input_data_f32
  | .u64 => read_dora_input_data_u64

theorem accessorOf_eq (t : ElementType) :
    accessorOf t = read_dora_input_data t := by
  cases t <;> rfl

/-! ## Context and the Output Dispatcher

`dora_send_output_*` (header lines 30-37) take the opaque context, an id,
and a typed buffer, and return an `int` status.  The context and the
dispatch behaviour are modelled from the spec (§4.4, §7). -/

/-- Modelled from the spec: the Context owns the runtime connection
(possibly closed), and the runtime behind it decides which output ids it
accepts and what size precondition a payload must meet (§4.4: failure when
the connection is closed, the id is rejected, or the payload fails a
size/alignment precondition). -/
structure DoraContext where
  closed : Bool
  acceptedIds : List String
  maxPayloadLen : Nat
  deriving DecidableEq, Repr

/-- An output record: the named, typed buffer handed to the runtime by a
successful send (§3 Output record). -/
structure OutputRecord where
  id : String
  ty : ElementType
  vals : List Int
  deriving DecidableEq, Repr

/-- Modelled from the spec: the shared contract of the four send entry
points (§4.4).  Returns the integer status together with the record handed
to the runtime: status 0 with the record on success; a distinct non-zero
status and no record when the connection is closed, the id is rejected by
the runtime, or the payload fails the size precondition. -/
def dora_send_output (ctx : DoraContext) (id : String) (ty : ElementType)
    (vals : List Int) : Int × Option OutputRecord :=
  if ctx.closed then (1, none)
  else if id ∈ ctx.acceptedIds then
    if vals.length ≤ ctx.maxPayloadLen then (0, some ⟨id, ty, vals⟩)
    else (3, none)
  else (2, none)

/-- Header entry point `dora_send_output_u8`, modelled. -/
def dora_send_output_u8 (ctx : DoraContext) (id : String) (vals : List Int) :
    Int × Option OutputRecord :=
  dora_send_output ctx id .u8 vals

/-- Header entry point `dora_send_output_i32`, modelled. -/
def dora_send_output_i32 (ctx : DoraContext) (id : String) (vals : List Int) :
    Int × Option OutputRecord :=
  dora_send_output ctx id .i32 vals

/-- Header entry point `dora_send_output_f32`, modelled. -/
def dora_send_output_f32 (ctx : DoraContext) (id : String) (vals : List Int) :
    Int × Option OutputRecord :=
  dora_send_output ctx id .f32 vals

/-- Header entry point `dora_send_output_u64`, modelled. -/
def dora_send_output_u64 (ctx : DoraContext) (id : String) (vals : List Int) :
    Int × Option OutputRecord :=
  dora_send_output ctx id .u64 vals

/-- Modelled from the spec: the simulated transport of the round-trip
property (§8) delivers an output record to a downstream subscriber as an
`Input` event with the same id and the same typed payload. -/
def transportDeliver (r : OutputRecord) : DoraEvent :=
  .input r.id ⟨r.ty, r.vals⟩

/-! ## The Event Source

`dora_next_event` (header line 9) pulls one event from the transport.  The
transport and the pull behaviour are modelled from the spec (§4.2): the
transport records arrivals in a FIFO queue; each pull pops the front item;
an exhausted queue yields a terminal `Stop`; a recorded connection fault
yields an `Error` event and the source continues; a stop signal is
terminal and discards everything behind it. -/

/-- Modelled from the spec: one item recorded by the transport, in arrival
order — an input message, the closing of one input, a connection fault
(surfaced as an `Error` event), or a stop signal from the runtime. -/
inductive TransportItem where
  | msg (id : String) (ty : ElementType) (vals : List Int)
  | inputDone (id : String)
  | fault (m : String)
  | stopSignal
  deriving DecidableEq, Repr

/-- The event a non-stop transport item is surfaced as. -/
def itemEvent : TransportItem → DoraEvent
  | .msg id ty vals => .input id ⟨ty, vals⟩
  | .inputDone id => .inputClosed id
  | .fault m => .err m
  | .stopSignal => .stop

/-- Modelled from the spec: the Event Source state is the queue of
transport items not yet surfaced, in arrival order. -/
structure SourceState where
  queue : List TransportItem
  deriving DecidableEq, Repr

/-- Modelled from the spec: `dora_next_event` (header line 9).  An empty
queue means the stream is permanently exhausted and yields the terminal
`Stop` (§4.2); a stop signal yields `Stop` and discards the rest of the
queue (Stop is terminal, §3); otherwise the front item is surfaced in
arrival order and removed. -/
def dora_next_event : SourceState → DoraEvent × SourceState
  | ⟨[]⟩ => (.stop, ⟨[]⟩)
  | ⟨.stopSignal :: _⟩ => (.stop, ⟨[]⟩)
  | ⟨item :: rest⟩ => (itemEvent item, ⟨rest⟩)

/-- The source state after one pull. -/
def stepState (s : SourceState) : SourceState :=
  (dora_next_event s).2

/-- The source state after `n` pulls. -/
def stateAfter (s : SourceState) : Nat → SourceState
  | 0 => s
  | n + 1 => stateAfter (stepState s) n

/-- The sequence of events produced by repeatedly calling
`dora_next_event`: `eventTrace s n` is the event returned by the
`(n+1)`-th call. -/
def eventTrace (s : SourceState) : Nat → DoraEvent
  | 0 => (dora_next_event s).1
  | n + 1 => eventTrace (stepState s) n

theorem stateAfter_add (s : SourceState) (a b : Nat) :
    stateAfter s (a + b) = stateAfter (stateAfter s a) b := by
  induction a generalizing s with
  | zero => simp [stateAfter]
  | succ a ih =>
      have : a + 1 + b = (a + b) + 1 := by omega
      rw [this]
      show stateAfter (stepState s) (a + b) = _
      rw [ih (stepState s)]
      rfl

theorem eventTrace_eq_next (s : SourceState) (n : Nat) :
    eventTrace s n = (dora_next_event (stateAfter s n)).1 := by
  induction n generalizing s with
  | zero => rfl
  | succ n ih => exact ih (stepState s)

/-- If a pull returns `Stop`, the new state has an empty queue. -/
theorem next_event_stop_empty (s : SourceState)
    (h : (dora_next_event s).1 = DoraEvent.stop) :
    (dora_next_event s).2 = ⟨[]⟩ := by
  obtain ⟨q⟩ := s
  match q with
  | [] => rfl
  | .stopSignal :: rest => rfl
  | .msg id ty vals :: rest => simp [dora_next_event, itemEvent] at h
  | .inputDone id :: rest => simp [dora_next_event, itemEvent] at h
  | .fault m :: rest => simp [dora_next_event, itemEvent] at h

theorem stateAfter_empty (n : Nat) :
    stateAfter ⟨[]⟩ n = (⟨[]⟩ : SourceState) := by
  induction n with
  | zero => rfl
  | succ n ih => exact ih

theorem stateAfter_succ (s : SourceState) (n : Nat) :
    stateAfter s (n + 1) = stepState (stateAfter s n) := by
  rw [stateAfter_add s n 1]
  rfl

/-! ## Read-only introspection (state-passing model) -/

/-- One introspection call of the header: the discriminator, the id
accessor, or one of the typed data accessors. -/
inductive ReadOp where
  | evType
  | evId
  | evData (ty : ElementType)
  deriving DecidableEq, Repr

/-- The result of one introspection call. -/
inductive ReadResult where
  | ty (t : DoraEventType)
  | idView (v : IdView)
  | dataView (v : DataView)
  deriving DecidableEq, Repr

/-- Modelled from the spec: introspection calls are read-only (§4.3, §5:
all derived views are read-only; the event is not mutated between its
production and its release).  Each call is modelled with explicit state
passing: it returns its result together with the event state after the
call, so that a mutating accessor would be representable. -/
def runRead : ReadOp → DoraEvent → ReadResult × DoraEvent
  | .evType, e => (.ty (read_dora_event_type e), e)
  | .evId, e => (.idView (read_dora_input_id e), e)
  | .evData t, e => (.dataView (read_dora_input_data t e), e)

/-- Run a sequence of introspection calls on an event, threading the event
state through, and collect the results in order. -/
def runReads : List ReadOp → DoraEvent → List ReadResult × DoraEvent
  | [], e => ([], e)
  | op :: ops, e =>
      let p := runRead op e
      let q := runReads ops p.2
      (p.1 :: q.1, q.2)

theorem runRead_snd (op : ReadOp) (e : DoraEvent) : (runRead op e).2 = e := by
  cases op <;> rfl

theorem runReads_snd (ops : List ReadOp) (e : DoraEvent) :
    (runReads ops e).2 = e := by
  induction ops generalizing e with
  | nil => rfl
  | cons op ops ih =>
      show (runReads ops (runRead op e).2).2 = e
      rw [runRead_snd, ih]

theorem runReads_fst (ops : List ReadOp) (e : DoraEvent) :
    (runReads ops e).1 = ops.map (fun op => (runRead op e).1) := by
  induction ops generalizing e with
  | nil => rfl
  | cons op ops ih =>
      show (runRead op e).1 :: (runReads ops (runRead op e).2).1 = _
      rw [runRead_snd, ih]
      rfl

/-! ## Claims -/

/-- Claim C1: for every Input event and every pair of supported element
types T and U with U ≠ T, if the event's payload was encoded as type U,
the type-T data accessor (read_dora_input_data_u8 / _i32 / _f32 / _u64)
returns a view with pointer = null and length = 0, never a
reinterpretation of the payload bytes. -/
theorem c1_type_mismatch_null_view (T U : ElementType) (id : String)
    (vals : List Int) (h : U ≠ T) :
    (accessorOf T (DoraEvent.input id ⟨U, vals⟩)).ptr = none ∧
      (accessorOf T (DoraEvent.input id ⟨U, vals⟩)).len = 0 := by
  rw [accessorOf_eq]
  simp [read_dora_input_data, h, DataView.nullView]

theorem c1_witness :
    ElementType.i32 ≠ ElementType.u8 ∧
      (accessorOf .u8 (DoraEvent.input "x" ⟨.i32, [1, 2]⟩)).ptr = none ∧
      (accessorOf .u8 (DoraEvent.input "x" ⟨.i32, [1, 2]⟩)).len = 0 :=
  ⟨by decide, c1_type_mismatch_null_view .u8 .i32 "x" [1, 2] (by decide)⟩

/-- Claim C2: every int32 buffer sent with `dora_send_output_i32` under an
id and delivered through the transport arrives as an Input event whose id
view equals that id and whose int32 data view equals the sent elements,
with length equal to the element count n, not the byte count 4·n. -/
theorem c2_i32_round_trip (ctx : DoraContext) (id : String) (vals : List Int)
    (h : (dora_send_output_i32 ctx id vals).1 = 0) :
    ∃ r, (dora_send_output_i32 ctx id vals).2 = some r ∧
      read_dora_event_type (transportDeliver r) = DoraEventType.Input ∧
      read_dora_input_id (transportDeliver r) = ⟨some id, id.length⟩ ∧
      read_dora_input_data_i32 (transportDeliver r) =
        ⟨some vals, vals.length⟩ ∧
      (vals.length ≠ 0 →
        (read_dora_input_data_i32 (transportDeliver r)).len ≠
          4 * vals.length) := by
  refine ⟨⟨id, .i32, vals⟩, ?_, rfl, rfl, ?_, ?_⟩
  · unfold dora_send_output_i32 dora_send_output at h ⊢
    cases hcl : ctx.closed with
    | true => rw [hcl] at h; simp at h
    | false =>
        rw [hcl] at h
        by_cases hm : id ∈ ctx.acceptedIds
        · by_cases hl : vals.length ≤ ctx.maxPayloadLen
          · simp [hm, hl]
          · simp [hm, hl] at h
        · simp [hm] at h
  · show read_dora_input_data .i32 (DoraEvent.input id ⟨.i32, vals⟩) = _
    simp [read_dora_input_data]
  · intro h0
    show (read_dora_input_data .i32 (DoraEvent.input id ⟨.i32, vals⟩)).len ≠ _
    simp [read_dora_input_data]
    omega

theorem c2_witness :
    (dora_send_output_i32 ⟨false, ["x"], 3⟩ "x" [1, 2, 3]).1 = 0 ∧
      ∃ r, (dora_send_output_i32 ⟨false, ["x"], 3⟩ "x" [1, 2, 3]).2 = some r ∧
        read_dora_event_type (transportDeliver r) = DoraEventType.Input ∧
        read_dora_input_id (transportDeliver r) = ⟨some "x", "x".length⟩ ∧
        read_dora_input_data_i32 (transportDeliver r) =
          ⟨some [1, 2, 3], ([1, 2, 3] : List Int).length⟩ ∧
        (([1, 2, 3] : List Int).length ≠ 0 →
          (read_dora_input_data_i32 (transportDeliver r)).len ≠
            4 * ([1, 2, 3] : List Int).length) :=
  ⟨by decide, c2_i32_round_trip ⟨false, ["x"], 3⟩ "x" [1, 2, 3] (by decide)⟩

/-- The full status contract of one send entry point: status 0 exactly when
a record was handed to the runtime; status 0 exactly when the connection is
open, the id is accepted and the payload meets the size precondition; and a
closed connection yields a non-zero status. -/
def sendStatusOk (res : Int × Option OutputRecord) (ctx : DoraContext)
    (id : String) (vals : List Int) : Prop :=
  (res.1 = 0 ↔ res.2.isSome = true) ∧
    (res.1 = 0 ↔
      ctx.closed = false ∧ id ∈ ctx.acceptedIds ∧
        vals.length ≤ ctx.maxPayloadLen) ∧
    (ctx.closed = true → res.1 ≠ 0)

theorem send_status_core (ctx : DoraContext) (id : String)
    (ty : ElementType) (vals : List Int) :
    sendStatusOk (dora_send_output ctx id ty vals) ctx id vals := by
  unfold sendStatusOk dora_send_output
  cases hcl : ctx.closed with
  | true => simp
  | false =>
      by_cases hm : id ∈ ctx.acceptedIds
      · by_cases hl : vals.length ≤ ctx.maxPayloadLen
        · simp [hm, hl]
        · simp [hm, hl]
      · simp [hm]

/-- Claim C3: every `dora_send_output_*` entry point returns an integer
status that is 0 exactly when the buffer was handed to the runtime, and
non-zero when the connection is closed, the id is rejected by the runtime,
or the payload fails the size precondition; in particular a send on a
closed connection returns non-zero (the call is a total function of its
arguments, so it cannot crash the caller). -/
theorem c3_send_status (ctx : DoraContext) (id : String) (vals : List Int) :
    sendStatusOk (dora_send_output_u8 ctx id vals) ctx id vals ∧
      sendStatusOk (dora_send_output_i32 ctx id vals) ctx id vals ∧
      sendStatusOk (dora_send_output_f32 ctx id vals) ctx id vals ∧
      sendStatusOk (dora_send_output_u64 ctx id vals) ctx id vals :=
  ⟨send_status_core ctx id .u8 vals, send_status_core ctx id .i32 vals,
   send_status_core ctx id .f32 vals, send_status_core ctx id .u64 vals⟩

theorem c3_witness :
    (dora_send_output_u8 ⟨true, ["x"], 4⟩ "x" [1]).1 ≠ 0 :=
  (c3_send_status ⟨true, ["x"], 4⟩ "x" [1]).1.2.2 rfl

/-- Claim C4: in every sequence of events produced by one Event Source
instance, once a Stop event has been produced, no later event is an Input
event — Stop is terminal, and every later pull again yields Stop rather
than any further event. -/
theorem c4_stop_terminal (s : SourceState) (n m : Nat) (hnm : n < m)
    (h : eventTrace s n = DoraEvent.stop) :
    eventTrace s m = DoraEvent.stop ∧
      read_dora_event_type (eventTrace s m) ≠ DoraEventType.Input := by
  have hm : eventTrace s m = DoraEvent.stop := by
    rw [eventTrace_eq_next] at h
    have hempty : stepState (stateAfter s n) = ⟨[]⟩ :=
      next_event_stop_empty _ h
    obtain ⟨k, hk⟩ : ∃ k, m = (n + 1) + k := ⟨m - (n + 1), by omega⟩
    rw [hk, eventTrace_eq_next, stateAfter_add, stateAfter_succ, hempty,
      stateAfter_empty]
    rfl
  rw [hm]
  exact ⟨rfl, by decide⟩

theorem c4_witness :
    (0 : Nat) < 1 ∧
      eventTrace ⟨[TransportItem.stopSignal,
        TransportItem.msg "a" .u8 [1]]⟩ 0 = DoraEvent.stop ∧
      (eventTrace ⟨[TransportItem.stopSignal,
          TransportItem.msg "a" .u8 [1]]⟩ 1 = DoraEvent.stop ∧
        read_dora_event_type (eventTrace ⟨[TransportItem.stopSignal,
          TransportItem.msg "a" .u8 [1]]⟩ 1) ≠ DoraEventType.Input) :=
  ⟨by decide, by decide,
    c4_stop_terminal ⟨[TransportItem.stopSignal,
      TransportItem.msg "a" .u8 [1]]⟩ 0 1 (by decide) (by decide)⟩

/-- Claim C5: when the event stream is permanently exhausted (the transport
queue holds nothing more), `dora_next_event` returns the terminal Stop
event rather than blocking forever — and keeps returning Stop on every
subsequent pull. -/
theorem c5_exhausted_yields_stop :
    dora_next_event ⟨[]⟩ = (DoraEvent.stop, ⟨[]⟩) ∧
      read_dora_event_type (dora_next_event ⟨[]⟩).1 = DoraEventType.Stop ∧
      ∀ n, eventTrace ⟨[]⟩ n = DoraEvent.stop := by
  refine ⟨rfl, rfl, fun n => ?_⟩
  rw [eventTrace_eq_next, stateAfter_empty]
  rfl

/-- Claim C6: a connection failure recorded by the transport is surfaced by
`dora_next_event` as an Error event carrying the diagnostic message, rather
than a fault that aborts the caller, and the Event Source continues
producing the subsequent events after it. -/
theorem c6_fault_surfaces_error (m : String) (rest : List TransportItem) :
    (dora_next_event ⟨.fault m :: rest⟩).1 = DoraEvent.err m ∧
      read_dora_event_type (dora_next_event ⟨.fault m :: rest⟩).1 =
        DoraEventType.Error ∧
      (dora_next_event ⟨.fault m :: rest⟩).2 = ⟨rest⟩ ∧
      ∀ k, eventTrace ⟨.fault m :: rest⟩ (k + 1) = eventTrace ⟨rest⟩ k :=
  ⟨rfl, rfl, rfl, fun _ => rfl⟩

/-- Claim C8: the Event Source returns events in the order the transport
recorded their arrival — strict FIFO interleaved across all input ids: the
n-th event returned is exactly the event of the n-th recorded item, so no
two returned events have their arrival order inverted. -/
theorem c8_fifo_order (q : List TransportItem) (n : Nat)
    (h1 : n < q.length) (h2 : TransportItem.stopSignal ∉ q) :
    eventTrace ⟨q⟩ n = itemEvent (q.get ⟨n, h1⟩) := by
  induction n generalizing q with
  | zero =>
      match q, h1 with
      | item :: rest, _ =>
        have hne : item ≠ TransportItem.stopSignal := by
          intro he
          exact h2 (he ▸ List.mem_cons_self _ _)
        cases item with
        | msg id ty vals => rfl
        | inputDone id => rfl
        | fault m => rfl
        | stopSignal => exact absurd rfl hne
  | succ n ih =>
      match q, h1 with
      | item :: rest, h1 =>
        have hne : item ≠ TransportItem.stopSignal := by
          intro he
          exact h2 (he ▸ List.mem_cons_self _ _)
        have hstep : stepState ⟨item :: rest⟩ = ⟨rest⟩ := by
          cases item with
          | msg id ty vals => rfl
          | inputDone id => rfl
          | fault m => rfl
          | stopSignal => exact absurd rfl hne
        have hlen : n < rest.length := by
          simp [List.length_cons] at h1
          omega
        have h2' : TransportItem.stopSignal ∉ rest := by
          intro hh
          exact h2 (List.mem_cons_of_mem _ hh)
        show eventTrace (stepState ⟨item :: rest⟩) n = _
        rw [hstep]
        exact ih rest hlen h2'

theorem c8_witness :
    (1 : Nat) < ([TransportItem.msg "a" .u8 [7],
        TransportItem.msg "b" .i32 [8]] : List TransportItem).length ∧
      TransportItem.stopSignal ∉ ([TransportItem.msg "a" .u8 [7],
        TransportItem.msg "b" .i32 [8]] : List TransportItem) ∧
      eventTrace ⟨[TransportItem.msg "a" .u8 [7],
        TransportItem.msg "b" .i32 [8]]⟩ 1 =
        DoraEvent.input "b" ⟨.i32, [8]⟩ := by
  refine ⟨by decide, by decide, ?_⟩
  have h := c8_fifo_order [TransportItem.msg "a" .u8 [7],
    TransportItem.msg "b" .i32 [8]] 1 (by decide) (by decide)
  simpa using h

/-- The five element types the spec lists for the Output Dispatcher: raw
bytes, uint8, int32, float32, uint64 (§4.4), stated as distinct types so
that "each a distinct entry point" can be tested against the header. -/
inductive SpecElementType where
  | rawBytes
  | uint8
  | int32
  | float32
  | uint64
  deriving DecidableEq, Fintype

/-- Claim C7 counterexample: the header declares exactly four send entry
points, so the five element types the claim lists (raw bytes, uint8,
int32, float32, uint64) cannot each have their own distinct send entry
point: there is no injection of the five types into the declared entry
point names. -/
theorem c7_counterexample :
    sendOutputDecls.length = 4 ∧
      ¬ ∃ f : SpecElementType → String, Function.Injective f ∧
          ∀ t, f t ∈ sendOutputDecls.map TypedDecl.name := by
  refine ⟨rfl, ?_⟩
  rintro ⟨f, hinj, hmem⟩
  have hcard :
      Fintype.card (Fin (sendOutputDecls.map TypedDecl.name).length) <
        Fintype.card SpecElementType := by
    simp [sendOutputDecls]
    decide
  have hlt : ∀ t, (sendOutputDecls.map TypedDecl.name).indexOf (f t) <
      (sendOutputDecls.map TypedDecl.name).length := fun t =>
    List.indexOf_lt_length.mpr (hmem t)
  obtain ⟨a, b, hab, heq⟩ := Fintype.exists_ne_map_eq_of_card_lt
    (fun t => (⟨(sendOutputDecls.map TypedDecl.name).indexOf (f t), hlt t⟩ :
      Fin (sendOutputDecls.map TypedDecl.name).length)) hcard
  apply hab
  apply hinj
  exact (List.indexOf_inj (hmem a) (hmem b)).mp (congrArg Fin.val heq)

/-- Claim C7 amended: the Output Dispatcher supports exactly four element
types — uint8 (which also carries raw bytes), int32, float32 and uint64 —
each through its own distinct send entry point sharing one contract, and
the event-introspection surface provides exactly one data accessor per
each of these four types. -/
theorem c7_amended :
    sendOutputDecls.length = 4 ∧
      dataAccessorDecls.length = 4 ∧
      sendOutputDecls.map (fun d => d.elemCType.elemTag) =
        [ElementType.u8, .i32, .f32, .u64] ∧
      dataAccessorDecls.map (fun d => d.elemCType.elemTag) =
        [ElementType.u8, .i32, .f32, .u64] ∧
      ([ElementType.u8, .i32, .f32, .u64] : List ElementType).Nodup ∧
      sendOutputDecls.map TypedDecl.name =
        ["dora_send_output_u8", "dora_send_output_i32",
         "dora_send_output_f32", "dora_send_output_u64"] ∧
      dataAccessorDecls.map TypedDecl.name =
        ["read_dora_input_data_u8", "read_dora_input_data_i32",
         "read_dora_input_data_f32", "read_dora_input_data_u64"] :=
  ⟨rfl, rfl, rfl, rfl, by decide, rfl, rfl⟩

/-- Claim C9: the int32 entry points, `read_dora_input_data_i32` and
`dora_send_output_i32`, are declared over the C type `int` rather than the
fixed-width `int32_t`, so the element width of an "int32" buffer is the
platform's int width and is 32 bits exactly where the platform defines
`int` as 32 bits. -/
theorem c9_i32_platform_int :
    accessorCType "read_dora_input_data_i32" = some CScalar.cInt ∧
      sendCType "dora_send_output_i32" = some CScalar.cInt ∧
      CScalar.cInt ≠ CScalar.cInt32 ∧
      CScalar.fixedWidth .cInt = none ∧
      ∀ p : Platform, CScalar.widthOn p .cInt = p.intBits ∧
        (CScalar.widthOn p .cInt = 32 ↔ p.intBits = 32) := by
  refine ⟨by decide, by decide, by decide, rfl, fun p => ⟨rfl, Iff.rfl⟩⟩

/-- Claim C10: between its production and its release, an event is
read-only under introspection and introspection is deterministic: running
any sequence of introspection calls (`read_dora_event_type`,
`read_dora_input_id`, `read_dora_input_data_*`) leaves the event unchanged,
and every call's result depends only on the event, so any two calls of the
same accessor in the sequence return the same result. -/
theorem c10_introspection_deterministic (ops : List ReadOp) (e : DoraEvent) :
    (runReads ops e).2 = e ∧
      (runReads ops e).1 = ops.map (fun op => (runRead op e).1) ∧
      ∀ i j : Fin ops.length, ops.get i = ops.get j →
        (ops.map (fun op => (runRead op e).1)).get
            (Fin.cast (List.length_map ops _).symm i) =
          (ops.map (fun op => (runRead op e).1)).get
            (Fin.cast (List.length_map ops _).symm j) := by
  refine ⟨runReads_snd ops e, runReads_fst ops e, fun i j hij => ?_⟩
  rw [List.get_map, List.get_map]
  simp only [Fin.cast]
  rw [hij]

end Dora
